import Mathlib

/-!
# Capsule sandbox server — shallow embedding and verification

This development embeds the core of the Capsule sandbox server
(`core/cmd/server/main.go` — the `docker` package, `core/api/rpc.go`,
`core/api/websocket.go`) as executable Lean definitions, and proves or
refutes the specification claims about it.

Bytes are modelled as `Nat` (one list entry per byte), instants as `Nat`
milliseconds, and the container runtime (the Docker daemon) as an oracle
record saying which runtime calls succeed and what the exec attach stream
carries.  Effects against the runtime and the registry are recorded as an
event trace so that ordering properties can be stated.
-/

namespace Capsule

/-- A byte string: one `Nat` per byte. -/
abbrev Bytes := List Nat

/-! ## Bounded capturing sink (`limitedWriter`, main.go) -/

/-- Embedding of `limitedWriter` (main.go): a writer wrapping a
`bytes.Buffer` with a byte cap.  `buf` is the underlying buffer's
contents, `max` is `Max`, `written` is `Written`. -/
structure LimitedWriter where
  buf : Bytes
  max : Nat
  written : Nat
  truncated : Bool
  deriving Repr, DecidableEq

/-- A fresh limited writer over an empty buffer, as built in
`DockerProvider.Exec`. -/
def LimitedWriter.init (max : Nat) : LimitedWriter :=
  { buf := [], max := max, written := 0, truncated := false }

/-- Embedding of `limitedWriter.Write` (main.go).  Returns the updated
writer and the count `n` it reports to the caller; the Go error is always
`nil` here because the underlying `bytes.Buffer` never fails, so it is not
modelled.  Note the three branches of the source: already-full discards
and reports `len(p)`; a cap-crossing write trims `p` to `remaining` and
reports only `remaining`; an in-budget write passes through. -/
def LimitedWriter.write (lw : LimitedWriter) (p : Bytes) : LimitedWriter × Nat :=
  if lw.written ≥ lw.max then
    ({ lw with truncated := true }, p.length)
  else
    let remaining := lw.max - lw.written
    let trunc : Bool := lw.truncated || decide (p.length > remaining)
    let q := if p.length > remaining then p.take remaining else p
    ({ lw with buf := lw.buf ++ q, written := lw.written + q.length, truncated := trunc },
      q.length)

/-! ## Multiplexed stream demux (`stdcopy.StdCopy`)

The runtime's exec attach stream is a framed byte stream: each frame is an
8-byte header (stream byte, three zero bytes, 4-byte big-endian payload
size) followed by the payload.  `stdcopy.StdCopy` (external dependency
`github.com/docker/docker/pkg/stdcopy`, modelled here at frame
granularity from its behaviour) reads a full frame, issues exactly one
`Write` of the whole payload to the sink selected by the stream byte, and
aborts with `io.ErrShortWrite` whenever that `Write` reports fewer bytes
than the payload size; on a clean header-boundary EOF it returns with no
error. -/

/-- Which logical stream a frame belongs to. -/
inductive StdStream
  | stdout
  | stderr
  deriving Repr, DecidableEq

/-- One frame of the runtime's multiplexed exec stream. -/
structure Frame where
  stream : StdStream
  payload : Bytes
  deriving Repr, DecidableEq

/-- Result of running the demux to completion or abortion. -/
structure StdCopyResult where
  outW : LimitedWriter
  errW : LimitedWriter
  /-- `true` iff the demux consumed the whole stream (reached EOF);
  `false` iff it stopped early with `io.ErrShortWrite`. -/
  drained : Bool
  deriving Repr, DecidableEq

/-- `stdcopy.StdCopy` over a frame list, writing into the two sinks.
Stops early (`drained = false`) on the first short write. -/
def stdCopy : List Frame → LimitedWriter → LimitedWriter → StdCopyResult
  | [], outW, errW => ⟨outW, errW, true⟩
  | f :: rest, outW, errW =>
    match f.stream with
    | .stdout =>
      let (outW', n) := outW.write f.payload
      if n = f.payload.length then stdCopy rest outW' errW
      else ⟨outW', errW, false⟩
    | .stderr =>
      let (errW', n) := errW.write f.payload
      if n = f.payload.length then stdCopy rest outW errW'
      else ⟨outW, errW', false⟩

/-- Total stdout payload carried by a multiplexed stream (the logical
stdout stream obtained by demultiplexing). -/
def stdoutBytesOf (fs : List Frame) : Nat :=
  (fs.filter (fun f => f.stream = StdStream.stdout)).foldl
    (fun acc f => acc + f.payload.length) 0

/-- Total stderr payload carried by a multiplexed stream. -/
def stderrBytesOf (fs : List Frame) : Nat :=
  (fs.filter (fun f => f.stream = StdStream.stderr)).foldl
    (fun acc f => acc + f.payload.length) 0

/-- The bounded capture step of `DockerProvider.Exec`: fresh limited
writers of the two caps, then `stdcopy.StdCopy` over the attach stream. -/
def execCapture (frames : List Frame) (maxOut maxErr : Nat) : StdCopyResult :=
  stdCopy frames (LimitedWriter.init maxOut) (LimitedWriter.init maxErr)

/-! ## Sandbox registry and Docker provider (main.go, `docker` package) -/

/-- Embedding of the `Sandbox` record (main.go).  Instants are `Nat`
milliseconds since some epoch. -/
structure Sandbox where
  id : String
  containerID : String
  template : String
  createdAt : Nat
  expiresAt : Nat
  deriving Repr, DecidableEq

/-- The in-memory registry `map[string]*Sandbox`, modelled as an
association list with distinct keys maintained by construction.  The
`sync.RWMutex` makes each registry operation atomic, so the sequential
functions below are the linearized behaviour. -/
abbrev Registry := List (String × Sandbox)

/-- Map lookup `p.sandboxes[id]`. -/
def Registry.lookup (reg : Registry) (id : String) : Option Sandbox :=
  (reg.find? (fun e => e.1 = id)).map (fun e => e.2)

/-- Map removal `delete(p.sandboxes, id)`. -/
def Registry.remove (reg : Registry) (id : String) : Registry :=
  reg.filter (fun e => e.1 ≠ id)

/-- Map assignment `p.sandboxes[id] = sb` (overwrites any prior entry). -/
def Registry.insert (reg : Registry) (id : String) (sb : Sandbox) : Registry :=
  (id, sb) :: Registry.remove reg id

/-- The static template registry (main.go `templates`). -/
def templates : List (String × String) :=
  [("python", "python:3.11-slim"), ("node", "node:20-slim"), ("go", "golang:1.22-alpine")]

/-- `templates[template]` lookup. -/
def lookupTemplate (t : String) : Option String :=
  (templates.find? (fun e => e.1 = t)).map (fun e => e.2)

/-- Embedding of the runtime-facing `container.Config` fields set in
`DockerProvider.Create` (main.go). -/
structure ContainerConfig where
  image : String
  cmd : List String
  workingDir : String
  tty : Bool
  openStdin : Bool
  attachStdin : Bool
  attachStdout : Bool
  attachStderr : Bool
  deriving Repr, DecidableEq

/-- Embedding of the `container.HostConfig` fields set in
`DockerProvider.Create` (main.go). -/
structure ContainerHostConfig where
  capDrop : List String
  networkMode : String
  securityOpt : List String
  memory : Nat
  memorySwap : Nat
  cpuPeriod : Nat
  cpuQuota : Nat
  pidsLimit : Nat
  deriving Repr, DecidableEq

/-- The `container.Config` literal built by `DockerProvider.Create`. -/
def mkContainerConfig (img : String) : ContainerConfig :=
  { image := img
    cmd := ["sleep", "infinity"]
    workingDir := "/workspace"
    tty := false
    openStdin := true
    attachStdin := true
    attachStdout := true
    attachStderr := true }

/-- The `container.HostConfig` literal built by `DockerProvider.Create`. -/
def sandboxHostConfig : ContainerHostConfig :=
  { capDrop := ["ALL"]
    networkMode := "none"
    securityOpt := ["no-new-privileges"]
    memory := 512 * 1024 * 1024
    memorySwap := 512 * 1024 * 1024
    cpuPeriod := 100000
    cpuQuota := 50000
    pidsLimit := 100 }

/-- Oracle for the Docker daemon: which runtime calls succeed during one
provider operation, and what the runtime hands back.  The adapter's
client is the external dependency; its outcomes are free inputs. -/
structure DockerOracle where
  /-- `ImageInspectWithRaw` finds the image locally. -/
  imageLocal : Bool
  /-- `ImagePull` succeeds. -/
  pullOk : Bool
  /-- `ContainerCreate` succeeds. -/
  createOk : Bool
  /-- `ContainerStart` succeeds. -/
  startOk : Bool
  /-- `ContainerRemove` succeeds. -/
  removeOk : Bool
  /-- `ContainerExecCreate` succeeds. -/
  execCreateOk : Bool
  /-- `ContainerExecAttach` succeeds. -/
  execAttachOk : Bool
  /-- `ContainerExecInspect` succeeds. -/
  inspectOk : Bool
  /-- Exit code reported by `ContainerExecInspect`. -/
  exitCode : Int
  /-- The per-exec deadline fired before the stream closed. -/
  deadlineFired : Bool
  /-- The frames the exec attach stream carries. -/
  frames : List Frame
  /-- Fresh sandbox id (`uuid.New().String()[:8]`). -/
  newSandboxID : String
  /-- Container id returned by `ContainerCreate`. -/
  newContainerID : String
  deriving Repr, DecidableEq

/-- Events a provider operation performs, in order, against the runtime
and the registry. -/
inductive DockerEvent
  | imagePull (img : String)
  | containerCreate (cfg : ContainerConfig) (host : ContainerHostConfig) (name : String)
  | containerStart (cid : String)
  | containerRemoveForce (cid : String)
  | execCreate (cid : String)
  | registryInsert (id : String)
  | registryRemove (id : String)
  deriving Repr, DecidableEq

/-- Structured provider errors (the `fmt.Errorf` messages of main.go,
by shape). -/
inductive ProviderErr
  | unknownTemplate (t : String)
  | pullFailed (img : String)
  | createFailed
  | startFailed
  | notFound (id : String)
  | removeFailed
  | execCreateFailed
  | execAttachFailed
  | inspectFailed
  | ioFailed (exitCode : Int)
  deriving Repr, DecidableEq

/-- Embedding of `DockerProvider.Create` (main.go).  Returns the new
registry, the event trace, and either an error or `(sandboxID,
expiresAt)`.  `now` is the `time.Now()` read after the container has
started; `ttl` is in milliseconds. -/
def DockerProvider.create (reg : Registry) (o : DockerOracle) (now : Nat)
    (template : String) (ttl : Nat) :
    Registry × List DockerEvent × Except ProviderErr (String × Nat) :=
  match lookupTemplate template with
  | none => (reg, [], .error (.unknownTemplate template))
  | some img =>
    let pullEvents : List DockerEvent := if o.imageLocal then [] else [.imagePull img]
    if !o.imageLocal && !o.pullOk then
      (reg, pullEvents, .error (.pullFailed img))
    else
      let sandboxID := o.newSandboxID
      let createEv : DockerEvent :=
        .containerCreate (mkContainerConfig img) sandboxHostConfig ("sandbox-" ++ sandboxID)
      if !o.createOk then
        (reg, pullEvents ++ [createEv], .error .createFailed)
      else if !o.startOk then
        (reg,
         pullEvents ++ [createEv, .containerStart o.newContainerID,
           .containerRemoveForce o.newContainerID],
         .error .startFailed)
      else
        let expiresAt := now + ttl
        let sb : Sandbox :=
          { id := sandboxID, containerID := o.newContainerID, template := template,
            createdAt := now, expiresAt := expiresAt }
        (Registry.insert reg sandboxID sb,
         pullEvents ++ [createEv, .containerStart o.newContainerID,
           .registryInsert sandboxID],
         .ok (sandboxID, expiresAt))

/-- What `DockerProvider.Exec` returns on the non-error path. -/
structure ExecOutcome where
  stdout : Bytes
  stderr : Bytes
  exitCode : Int
  timedOut : Bool
  stdoutTruncated : Bool
  stderrTruncated : Bool
  deriving Repr, DecidableEq

/-- Embedding of `DockerProvider.Exec` (main.go).  The registry is only
read.  The `stdcopy.StdCopy` error is overwritten by the inspect call in
the source, so a short-write abort does not fail the exec; when inspect
fails the exec still returns the captured output with exit code `-1`. -/
def DockerProvider.exec (reg : Registry) (o : DockerOracle) (id : String)
    (maxOut maxErr : Nat) :
    List DockerEvent × Except ProviderErr ExecOutcome :=
  match Registry.lookup reg id with
  | none => ([], .error (.notFound id))
  | some sb =>
    if !o.execCreateOk then ([.execCreate sb.containerID], .error .execCreateFailed)
    else if !o.execAttachOk then ([.execCreate sb.containerID], .error .execAttachFailed)
    else
      let cap := execCapture o.frames maxOut maxErr
      let timedOut := o.deadlineFired
      let ec := if o.inspectOk then o.exitCode else -1
      ([.execCreate sb.containerID],
       .ok { stdout := cap.outW.buf, stderr := cap.errW.buf, exitCode := ec,
             timedOut := timedOut, stdoutTruncated := cap.outW.truncated,
             stderrTruncated := cap.errW.truncated })

/-- Embedding of `DockerProvider.Delete` (main.go).  Under the writer
lock the record is looked up and removed from the map; only then — and
only if it was present — is `ContainerRemove` called. -/
def DockerProvider.delete (reg : Registry) (o : DockerOracle) (id : String) :
    Registry × List DockerEvent × Option ProviderErr :=
  match Registry.lookup reg id with
  | none => (reg, [], some (.notFound id))
  | some sb =>
    let reg' := Registry.remove reg id
    (reg',
     [.registryRemove id, .containerRemoveForce sb.containerID],
     if o.removeOk then none else some .removeFailed)

/-- Embedding of the selection step of `DockerProvider.cleanupExpired`
(main.go): under the read lock, snapshot the ids for which
`now.After(sb.ExpiresAt)` holds, i.e. `expiresAt < now` strictly. -/
def cleanupExpiredIds (reg : Registry) (now : Nat) : List String :=
  (reg.filter (fun e => decide (now > e.2.expiresAt))).map (fun e => e.1)

/-! ## File operations (main.go: `WriteFile`, `ReadFile`, `ListDir`) -/

/-- Unbounded demux of a multiplexed stream into its stdout and stderr
byte strings: `stdcopy.StdCopy` into two plain `bytes.Buffer`s, which
never short-write, so every frame is routed. -/
def demuxAll (fs : List Frame) : Bytes × Bytes :=
  fs.foldl
    (fun acc f =>
      match f.stream with
      | .stdout => (acc.1 ++ f.payload, acc.2)
      | .stderr => (acc.1, acc.2 ++ f.payload))
    ([], [])

/-- Embedding of `DockerProvider.WriteFile` (main.go).  The shell
command string (`mkdir -p … && echo B64 | base64 -d > PATH`) is
runtime-facing; what the provider observes is the exec lifecycle and the
exit code, both supplied by the oracle. -/
def DockerProvider.writeFile (reg : Registry) (o : DockerOracle) (id : String) :
    List DockerEvent × Option ProviderErr :=
  match Registry.lookup reg id with
  | none => ([], some (.notFound id))
  | some sb =>
    if !o.execCreateOk then ([.execCreate sb.containerID], some .execCreateFailed)
    else if !o.execAttachOk then ([.execCreate sb.containerID], some .execAttachFailed)
    else if !o.inspectOk then ([.execCreate sb.containerID], some .inspectFailed)
    else if o.exitCode ≠ 0 then ([.execCreate sb.containerID], some (.ioFailed o.exitCode))
    else ([.execCreate sb.containerID], none)

/-- Embedding of `DockerProvider.ReadFile` (main.go): run `cat PATH`,
demux without caps, and return the captured stdout verbatim when the
exit code is zero. -/
def DockerProvider.readFile (reg : Registry) (o : DockerOracle) (id : String) :
    List DockerEvent × Except ProviderErr Bytes :=
  match Registry.lookup reg id with
  | none => ([], .error (.notFound id))
  | some sb =>
    if !o.execCreateOk then ([.execCreate sb.containerID], .error .execCreateFailed)
    else if !o.execAttachOk then ([.execCreate sb.containerID], .error .execAttachFailed)
    else
      let cap := demuxAll o.frames
      if !o.inspectOk then ([.execCreate sb.containerID], .error .inspectFailed)
      else if o.exitCode ≠ 0 then ([.execCreate sb.containerID], .error (.ioFailed o.exitCode))
      else ([.execCreate sb.containerID], .ok cap.1)

/-- `rpc.FileInfo`, the entry shape produced by `ListDir`. -/
structure FileInfo where
  name : String
  path : String
  isDir : Bool
  size : Int
  deriving Repr, DecidableEq

/-- Go's `string(bytes)` on ASCII content. -/
def bytesToString (b : Bytes) : String :=
  String.mk (b.map Char.ofNat)

/-- `bytes.TrimSpace`: strip leading and trailing ASCII whitespace. -/
def trimSpaceBytes (b : Bytes) : Bytes :=
  let ws : Nat → Bool := fun c => c = 9 || c = 10 || c = 11 || c = 12 || c = 13 || c = 32
  ((b.dropWhile ws).reverse.dropWhile ws).reverse

/-- `fmt.Sscanf(s, "%d", &size)` on a byte field: skip leading blanks,
read an optional sign and a digit run; when no digits are found the
target keeps its zero value (the source ignores the scan error). -/
def scanDecimal (b : Bytes) : Int :=
  let isDigit : Nat → Bool := fun c => 48 ≤ c && c ≤ 57
  let toNum : Bytes → Nat := fun ds => ds.foldl (fun acc d => acc * 10 + (d - 48)) 0
  let b := b.dropWhile (fun c => c = 32 || c = 9)
  match b with
  | 45 :: rest =>
    let ds := rest.takeWhile isDigit
    if ds.isEmpty then 0 else -(toNum ds : Int)
  | _ =>
    let ds := b.takeWhile isDigit
    if ds.isEmpty then 0 else (toNum ds : Int)

/-- The parsing loop of `DockerProvider.ListDir` (main.go): trim the
captured stdout, split on newlines, split each line on tabs, skip empty
lines and lines with fewer than four fields, and build `FileInfo`
records (`is_dir` iff the type field is `"d"`). -/
def parseListing (dirPath : String) (stdout : Bytes) : List FileInfo :=
  let lines := (trimSpaceBytes stdout).splitOn 10
  lines.filterMap fun line =>
    if line.isEmpty then none
    else
      match line.splitOn 9 with
      | p0 :: p1 :: p2 :: _ :: _ =>
        let name := bytesToString p0
        some { name := name, path := dirPath ++ "/" ++ name,
               isDir := bytesToString p2 = "d", size := scanDecimal p1 }
      | _ => none

/-- Embedding of `DockerProvider.ListDir` (main.go): run the `find`
pipeline, demux without caps, and parse the stdout.  The exec is never
inspected; a failed listing parses to an empty list rather than an
error. -/
def DockerProvider.listDir (reg : Registry) (o : DockerOracle) (id : String)
    (path : String) :
    List DockerEvent × Except ProviderErr (List FileInfo) :=
  match Registry.lookup reg id with
  | none => ([], .error (.notFound id))
  | some sb =>
    if !o.execCreateOk then ([.execCreate sb.containerID], .error .execCreateFailed)
    else if !o.execAttachOk then ([.execCreate sb.containerID], .error .execAttachFailed)
    else
      let cap := demuxAll o.frames
      ([.execCreate sb.containerID], .ok (parseListing path cap.1))

/-! ## JSON values and Go-style struct decoding (rpc.go params) -/

/-- A JSON value; numbers are restricted to integers, which covers every
field the RPC surface decodes. -/
inductive Json
  | null
  | bool (b : Bool)
  | num (n : Int)
  | str (s : String)
  | arr (xs : List Json)
  | obj (fields : List (String × Json))

/-- `encoding/json` decoding of a string field: absent or `null` keeps
the zero value `""`; a non-string value is a type error. -/
def decStr (fs : List (String × Json)) (k : String) : Option String :=
  match ((fs.find? (fun e => e.1 = k)).map (fun e => e.2) : Option Json) with
  | none => some ""
  | some .null => some ""
  | some (.str s) => some s
  | some _ => none

/-- `encoding/json` decoding of an int field: absent or `null` keeps the
zero value `0`; a non-number is a type error. -/
def decInt (fs : List (String × Json)) (k : String) : Option Int :=
  match ((fs.find? (fun e => e.1 = k)).map (fun e => e.2) : Option Json) with
  | none => some 0
  | some .null => some 0
  | some (.num n) => some n
  | some _ => none

/-- `encoding/json` decoding of a `[]string` field: absent or `null`
keeps the nil slice; every element must be a string. -/
def decStrList (fs : List (String × Json)) (k : String) : Option (List String) :=
  match ((fs.find? (fun e => e.1 = k)).map (fun e => e.2) : Option Json) with
  | none => some []
  | some .null => some []
  | some (.arr xs) =>
    xs.mapM fun j => match j with | .str s => some s | _ => none
  | some _ => none

/-- `encoding/json` decoding of a `map[string]string` field. -/
def decStrMap (fs : List (String × Json)) (k : String) :
    Option (List (String × String)) :=
  match ((fs.find? (fun e => e.1 = k)).map (fun e => e.2) : Option Json) with
  | none => some []
  | some .null => some []
  | some (.obj kvs) =>
    kvs.mapM fun kv => match kv.2 with | .str s => some (kv.1, s) | _ => none
  | some _ => none

/-- `CreateParams` (rpc.go). -/
structure CreateParams where
  template : String
  ttlMS : Int
  deriving Repr, DecidableEq

/-- `json.Unmarshal(req.Params, &CreateParams{})`: a nil raw message
errors, JSON `null` is a no-op over the zero struct, and a non-object
is a type error. -/
def decodeCreateParams : Option Json → Option CreateParams
  | none => none
  | some .null => some { template := "", ttlMS := 0 }
  | some (.obj fs) => do
    let template ← decStr fs "template"
    let ttl ← decInt fs "ttl_ms"
    pure { template := template, ttlMS := ttl }
  | some _ => none

/-- `ExecParams` (rpc.go). -/
structure ExecParams where
  id : String
  cmd : List String
  cwd : String
  env : List (String × String)
  timeoutMS : Int
  maxStdoutBytes : Int
  maxStderrBytes : Int
  deriving Repr, DecidableEq

/-- `json.Unmarshal` into `ExecParams`. -/
def decodeExecParams : Option Json → Option ExecParams
  | none => none
  | some .null =>
    some { id := "", cmd := [], cwd := "", env := [], timeoutMS := 0,
           maxStdoutBytes := 0, maxStderrBytes := 0 }
  | some (.obj fs) => do
    let id ← decStr fs "id"
    let cmd ← decStrList fs "cmd"
    let cwd ← decStr fs "cwd"
    let env ← decStrMap fs "env"
    let timeoutMS ← decInt fs "timeout_ms"
    let maxOut ← decInt fs "max_stdout_bytes"
    let maxErr ← decInt fs "max_stderr_bytes"
    pure { id := id, cmd := cmd, cwd := cwd, env := env, timeoutMS := timeoutMS,
           maxStdoutBytes := maxOut, maxStderrBytes := maxErr }
  | some _ => none

/-- `DeleteParams` (rpc.go). -/
structure DeleteParams where
  id : String
  deriving Repr, DecidableEq

/-- `json.Unmarshal` into `DeleteParams`. -/
def decodeDeleteParams : Option Json → Option DeleteParams
  | none => none
  | some .null => some { id := "" }
  | some (.obj fs) => do
    let id ← decStr fs "id"
    pure { id := id }
  | some _ => none

/-- Modelled from the spec: params of `sandbox.v1.writeFile`
(`{id, path, content}` with base64 content, §6.1) — the dispatch case
and its param type are repository transport code absent from
`src/core/api/rpc.go` (that file's `Provider` interface and switch stop
at delete, while `main.go` implements and `rpc.FileInfo` witnesses the
fuller surface). -/
structure WriteFileParams where
  id : String
  path : String
  content : String
  deriving Repr, DecidableEq

/-- Modelled from the spec: `json.Unmarshal` into `WriteFileParams`,
following the same Go decoding conventions as the cases present in
`src/core/api/rpc.go`. -/
def decodeWriteFileParams : Option Json → Option WriteFileParams
  | none => none
  | some .null => some { id := "", path := "", content := "" }
  | some (.obj fs) => do
    let id ← decStr fs "id"
    let path ← decStr fs "path"
    let content ← decStr fs "content"
    pure { id := id, path := path, content := content }
  | some _ => none

/-- Modelled from the spec: params of `sandbox.v1.readFile` and
`sandbox.v1.listDir` (`{id, path}`, §6.1). -/
structure FilePathParams where
  id : String
  path : String
  deriving Repr, DecidableEq

/-- Modelled from the spec: `json.Unmarshal` into `FilePathParams`. -/
def decodeFilePathParams : Option Json → Option FilePathParams
  | none => none
  | some .null => some { id := "", path := "" }
  | some (.obj fs) => do
    let id ← decStr fs "id"
    let path ← decStr fs "path"
    pure { id := id, path := path }
  | some _ => none

/-! ## JSON-RPC transport (rpc.go `Server.ServeHTTP`) -/

/-- rpc.go constants. -/
def DefaultTimeoutMS : Int := 5000

/-- rpc.go: default per-stream cap, 1 MiB. -/
def DefaultStdoutBytes : Int := 2 ^ 20

/-- rpc.go: default per-stream cap, 1 MiB. -/
def DefaultStderrBytes : Int := 2 ^ 20

/-- rpc.go: timeout ceiling, 2 minutes. -/
def MaxTimeoutMS : Int := 120000

/-- rpc.go: per-stream cap ceiling, 10 MiB. -/
def MaxOutputBytesCap : Int := 10 * 2 ^ 20

/-- The JSON-RPC error `data` payload (`ErrorData`, rpc.go); `details`
holds the wrapped provider error when one is attached. -/
structure ErrorData where
  type : String
  retryable : Bool
  details : Option ProviderErr
  deriving Repr, DecidableEq

/-- `RPCError` (rpc.go). -/
structure RPCError where
  code : Int
  message : String
  data : Option ErrorData
  deriving Repr, DecidableEq

/-- `rpcErr` (rpc.go). -/
def rpcErr (code : Int) (msg typ : String) (retryable : Bool)
    (details : Option ProviderErr) : RPCError :=
  { code := code, message := msg,
    data := some { type := typ, retryable := retryable, details := details } }

/-- `CreateResult` (rpc.go); the RFC 3339 rendering of the two instants
is kept as the instants themselves. -/
structure CreateResult where
  id : String
  template : String
  createdAt : Nat
  expiresAt : Nat
  deriving Repr, DecidableEq

/-- `ExecResult` (rpc.go).  `durationMS` is wall-clock and is carried as
an opaque field. -/
structure TExecResult where
  stdout : Bytes
  stderr : Bytes
  exitCode : Int
  timedOut : Bool
  stdoutTruncated : Bool
  stderrTruncated : Bool
  durationMS : Nat
  deriving Repr, DecidableEq

/-- The result shapes of §6.1, one constructor per method family.
`okTrue` is the `{ok:true}` shape shared by delete and writeFile;
`readFileRes` carries the bytes whose base64 rendering is the wire
`content`. -/
inductive RpcResult
  | createRes (r : CreateResult)
  | execRes (r : TExecResult)
  | okTrue
  | readFileRes (content : Bytes)
  | listDirRes (files : List FileInfo)
  deriving Repr, DecidableEq

/-- `RPCRequest` (rpc.go), after the body has been read (the 2 MiB body
cap and byte-level JSON parse are HTTP framing ahead of this model);
`id` is the echoed request id. -/
structure RpcRequest where
  jsonrpc : String
  id : Option Int
  method : String
  params : Option Json

/-- `RPCResponse` (rpc.go). -/
structure RpcResponse where
  id : Option Int
  result : Option RpcResult
  error : Option RPCError
  deriving Repr, DecidableEq

/-- The server-side state a request acts on: the registry plus the
runtime oracle and the current instant. -/
structure World where
  reg : Registry
  oracle : DockerOracle
  now : Nat
  deriving Repr, DecidableEq

/-- Outcome of serving one request: new state, the provider event trace,
and the JSON-RPC response written to the client. -/
abbrev Served := World × List DockerEvent × RpcResponse

/-- The `sandbox.v1.create` case of `Server.ServeHTTP` (rpc.go). -/
def handleCreate (w : World) (req : RpcRequest) : Served :=
  match decodeCreateParams req.params with
  | none =>
    (w, [], ⟨req.id, none, some (rpcErr (-32001) "invalid params" "INVALID_PARAMS" false none)⟩)
  | some p =>
    if p.template = "" then
      (w, [], ⟨req.id, none, some (rpcErr (-32001) "invalid params" "INVALID_PARAMS" false none)⟩)
    else
      let ttl : Nat := (if p.ttlMS ≤ 0 then 600000 else p.ttlMS).toNat
      match DockerProvider.create w.reg w.oracle w.now p.template ttl with
      | (reg', tr, .error e) =>
        ({ w with reg := reg' }, tr,
         ⟨req.id, none,
          some (rpcErr (-32003) "container create failed" "CONTAINER_CREATE_FAILED" true (some e))⟩)
      | (reg', tr, .ok (id, exp)) =>
        ({ w with reg := reg' }, tr,
         ⟨req.id,
          some (.createRes { id := id, template := p.template, createdAt := w.now,
                             expiresAt := exp }),
          none⟩)

/-- The clamping of `timeout_ms` in the exec case (rpc.go). -/
def clampTimeout (t : Int) : Int :=
  let t := if t ≤ 0 then DefaultTimeoutMS else t
  if t > MaxTimeoutMS then MaxTimeoutMS else t

/-- The clamping of a per-stream byte cap in the exec case (rpc.go). -/
def clampCap (v dflt : Int) : Int :=
  let v := if v ≤ 0 then dflt else v
  if v > MaxOutputBytesCap then MaxOutputBytesCap else v

/-- The `sandbox.v1.exec` case of `Server.ServeHTTP` (rpc.go).  The
provider error paths all return `timedOut = false`, so the transport's
deadline test reduces to the oracle's deadline on the success path
only; a provider error surfaces as `EXEC_FAILED`. -/
def handleExec (w : World) (req : RpcRequest) : Served :=
  match decodeExecParams req.params with
  | none =>
    (w, [], ⟨req.id, none, some (rpcErr (-32001) "invalid params" "INVALID_PARAMS" false none)⟩)
  | some p =>
    if p.id = "" || p.cmd.isEmpty then
      (w, [], ⟨req.id, none, some (rpcErr (-32001) "invalid params" "INVALID_PARAMS" false none)⟩)
    else
      let maxOut := (clampCap p.maxStdoutBytes DefaultStdoutBytes).toNat
      let maxErr := (clampCap p.maxStderrBytes DefaultStderrBytes).toNat
      match DockerProvider.exec w.reg w.oracle p.id maxOut maxErr with
      | (tr, .error e) =>
        (w, tr,
         ⟨req.id, none, some (rpcErr (-32005) "exec failed" "EXEC_FAILED" true (some e))⟩)
      | (tr, .ok ec) =>
        (w, tr,
         ⟨req.id,
          some (.execRes { stdout := ec.stdout, stderr := ec.stderr, exitCode := ec.exitCode,
                           timedOut := ec.timedOut, stdoutTruncated := ec.stdoutTruncated,
                           stderrTruncated := ec.stderrTruncated, durationMS := 0 }),
          none⟩)

/-- The `sandbox.v1.delete` case of `Server.ServeHTTP` (rpc.go). -/
def handleDelete (w : World) (req : RpcRequest) : Served :=
  match decodeDeleteParams req.params with
  | none =>
    (w, [], ⟨req.id, none, some (rpcErr (-32001) "invalid params" "INVALID_PARAMS" false none)⟩)
  | some p =>
    if p.id = "" then
      (w, [], ⟨req.id, none, some (rpcErr (-32001) "invalid params" "INVALID_PARAMS" false none)⟩)
    else
      match DockerProvider.delete w.reg w.oracle p.id with
      | (reg', tr, some e) =>
        ({ w with reg := reg' }, tr,
         ⟨req.id, none, some (rpcErr (-32007) "delete failed" "DELETE_FAILED" true (some e))⟩)
      | (reg', tr, none) =>
        ({ w with reg := reg' }, tr, ⟨req.id, some .okTrue, none⟩)

/-- Modelled from the spec: the `sandbox.v1.writeFile` case of the
dispatcher (§6.1: params `{id, path, content}`, result `{ok:true}`;
§7: missing required field → `INVALID_PARAMS`, nonzero exit →
`IO_FAILED`).  The case is absent from `src/core/api/rpc.go`; it wraps
the in-source `DockerProvider.WriteFile`. -/
def handleWriteFile (w : World) (req : RpcRequest) : Served :=
  match decodeWriteFileParams req.params with
  | none =>
    (w, [], ⟨req.id, none, some (rpcErr (-32001) "invalid params" "INVALID_PARAMS" false none)⟩)
  | some p =>
    if p.id = "" || p.path = "" then
      (w, [], ⟨req.id, none, some (rpcErr (-32001) "invalid params" "INVALID_PARAMS" false none)⟩)
    else
      match DockerProvider.writeFile w.reg w.oracle p.id with
      | (tr, some e) =>
        (w, tr, ⟨req.id, none, some (rpcErr (-32006) "write file failed" "IO_FAILED" false (some e))⟩)
      | (tr, none) =>
        (w, tr, ⟨req.id, some .okTrue, none⟩)

/-- Modelled from the spec: the `sandbox.v1.readFile` case of the
dispatcher (§6.1: params `{id, path}`, result `{content}` base64).
Wraps the in-source `DockerProvider.ReadFile`. -/
def handleReadFile (w : World) (req : RpcRequest) : Served :=
  match decodeFilePathParams req.params with
  | none =>
    (w, [], ⟨req.id, none, some (rpcErr (-32001) "invalid params" "INVALID_PARAMS" false none)⟩)
  | some p =>
    if p.id = "" || p.path = "" then
      (w, [], ⟨req.id, none, some (rpcErr (-32001) "invalid params" "INVALID_PARAMS" false none)⟩)
    else
      match DockerProvider.readFile w.reg w.oracle p.id with
      | (tr, .error e) =>
        (w, tr, ⟨req.id, none, some (rpcErr (-32006) "read file failed" "IO_FAILED" false (some e))⟩)
      | (tr, .ok content) =>
        (w, tr, ⟨req.id, some (.readFileRes content), none⟩)

/-- Modelled from the spec: the `sandbox.v1.listDir` case of the
dispatcher (§6.1: params `{id, path}`, result
`{files: [{name, path, is_dir, size}]}`).  Wraps the in-source
`DockerProvider.ListDir`. -/
def handleListDir (w : World) (req : RpcRequest) : Served :=
  match decodeFilePathParams req.params with
  | none =>
    (w, [], ⟨req.id, none, some (rpcErr (-32001) "invalid params" "INVALID_PARAMS" false none)⟩)
  | some p =>
    if p.id = "" || p.path = "" then
      (w, [], ⟨req.id, none, some (rpcErr (-32001) "invalid params" "INVALID_PARAMS" false none)⟩)
    else
      match DockerProvider.listDir w.reg w.oracle p.id p.path with
      | (tr, .error e) =>
        (w, tr, ⟨req.id, none, some (rpcErr (-32006) "list dir failed" "IO_FAILED" false (some e))⟩)
      | (tr, .ok files) =>
        (w, tr, ⟨req.id, some (.listDirRes files), none⟩)

/-- The six RPC method names of §6.1. -/
def rpcMethods : List String :=
  ["sandbox.v1.create", "sandbox.v1.exec", "sandbox.v1.writeFile",
   "sandbox.v1.readFile", "sandbox.v1.listDir", "sandbox.v1.delete"]

/-- `Server.ServeHTTP` (rpc.go) after body read and JSON unmarshal: the
envelope check and the method switch.  The three file-operation cases
are the spec-modelled handlers above; the remaining cases and the
`-32601` default are embedded from the source. -/
def serveRPC (w : World) (req : RpcRequest) : Served :=
  if req.jsonrpc ≠ "2.0" || req.method = "" then
    (w, [],
     ⟨none, none, some (rpcErr (-32001) "invalid json-rpc request" "INVALID_PARAMS" false none)⟩)
  else if req.method = "sandbox.v1.create" then handleCreate w req
  else if req.method = "sandbox.v1.exec" then handleExec w req
  else if req.method = "sandbox.v1.writeFile" then handleWriteFile w req
  else if req.method = "sandbox.v1.readFile" then handleReadFile w req
  else if req.method = "sandbox.v1.listDir" then handleListDir w req
  else if req.method = "sandbox.v1.delete" then handleDelete w req
  else
    (w, [],
     ⟨req.id, none, some ({ code := -32601, message := "method not found", data := none })⟩)

/-- The §6.1 result-shape discipline: which result constructor each
method returns. -/
def resultShapeOK : String → RpcResult → Bool
  | "sandbox.v1.create", .createRes _ => true
  | "sandbox.v1.exec", .execRes _ => true
  | "sandbox.v1.writeFile", .okTrue => true
  | "sandbox.v1.readFile", .readFileRes _ => true
  | "sandbox.v1.listDir", .listDirRes _ => true
  | "sandbox.v1.delete", .okTrue => true
  | _, _ => false

/-! ## Terminal bridge (websocket.go `TerminalHandler.ServeHTTP`)

The bridge spawns two copy loops and then blocks on `<-done`.  In the
source, `done` is closed by `defer close(done)` inside the
container→client goroutine only; the client→container goroutine never
touches `done`.  Each loop is modelled by what its blocking read
eventually observes: a finite prefix of chunks followed by either an
end-of-stream (the read returns an error and the loop exits) or a
permanently blocked read (the stream stays open with nothing to
deliver, so the loop never returns — nothing closes the underlying
stream for it). -/

/-- The exec attach stream as seen by the container→client loop's
`resp.Reader.Read`. -/
inductive AttachStream
  | eof
  | blockedA
  | chunk (b : Bytes) (rest : AttachStream)
  deriving Repr, DecidableEq

/-- The websocket frame sequence as seen by the client→container loop's
`conn.ReadMessage`. -/
inductive ClientStream
  | closed
  | blockedC
  | frame (b : Bytes) (rest : ClientStream)
  deriving Repr, DecidableEq

/-- Whether the container→client loop (websocket.go lines 104–123)
returns: it exits on a read error/EOF or on a failed
`conn.WriteMessage`; a permanently blocked read never returns.
`clientWriteOk` says whether websocket writes still succeed. -/
def downstreamTerminates : AttachStream → Bool → Bool
  | .eof, _ => true
  | .blockedA, _ => false
  | .chunk _ rest, clientWriteOk =>
    if clientWriteOk then downstreamTerminates rest clientWriteOk else true

/-- Whether the client→container loop (websocket.go lines 126–141)
returns: it exits on a `ReadMessage` error (peer closed) or on a failed
write to the exec's stdin.  `stdinWriteOk` says whether `resp.Conn.Write`
still succeeds. -/
def upstreamTerminates : ClientStream → Bool → Bool
  | .closed, _ => true
  | .blockedC, _ => false
  | .frame _ rest, stdinWriteOk =>
    if stdinWriteOk then upstreamTerminates rest stdinWriteOk else true

/-- When the bridge handler returns: `ServeHTTP` blocks on `<-done`, and
`done` is closed exactly when the container→client loop returns
(websocket.go line 105); the client→container loop does not close it,
and neither loop closes the other's underlying stream. -/
def bridgeShutsDown (attach : AttachStream) (clientWriteOk : Bool) : Bool :=
  downstreamTerminates attach clientWriteOk

/-! ## Registry lemmas -/

theorem Registry.lookup_remove (reg : Registry) (id : String) :
    Registry.lookup (Registry.remove reg id) id = none := by
  induction reg with
  | nil => rfl
  | cons e t ih =>
    by_cases h : e.1 = id
    · rw [show Registry.remove (e :: t) id = Registry.remove t id by
            simp [Registry.remove, List.filter, h]]
      exact ih
    · rw [show Registry.remove (e :: t) id = e :: Registry.remove t id by
            simp [Registry.remove, List.filter, h],
          show Registry.lookup (e :: Registry.remove t id) id =
            Registry.lookup (Registry.remove t id) id by
            simp [Registry.lookup, List.find?, h]]
      exact ih

theorem Registry.lookup_remove_ne (reg : Registry) (id id' : String) (h : id' ≠ id) :
    Registry.lookup (Registry.remove reg id) id' = Registry.lookup reg id' := by
  induction reg with
  | nil => rfl
  | cons e t ih =>
    by_cases he : e.1 = id
    · have he' : ¬ e.1 = id' := by
        rw [he]; exact fun hh => h hh.symm
      rw [show Registry.remove (e :: t) id = Registry.remove t id by
            simp [Registry.remove, List.filter, he],
          show Registry.lookup (e :: t) id' = Registry.lookup t id' by
            simp [Registry.lookup, List.find?, he']]
      exact ih
    · rw [show Registry.remove (e :: t) id = e :: Registry.remove t id by
            simp [Registry.remove, List.filter, he]]
      by_cases he' : e.1 = id'
      · simp [Registry.lookup, List.find?, he']
      · rw [show Registry.lookup (e :: Registry.remove t id) id' =
              Registry.lookup (Registry.remove t id) id' by
              simp [Registry.lookup, List.find?, he'],
            show Registry.lookup (e :: t) id' = Registry.lookup t id' by
              simp [Registry.lookup, List.find?, he']]
        exact ih

theorem Registry.lookup_insert_self (reg : Registry) (id : String) (sb : Sandbox) :
    Registry.lookup (Registry.insert reg id sb) id = some sb := by
  simp [Registry.insert, Registry.lookup, List.find?]

theorem Registry.lookup_insert_ne (reg : Registry) (id id' : String) (sb : Sandbox)
    (h : id' ≠ id) :
    Registry.lookup (Registry.insert reg id sb) id' = Registry.lookup reg id' := by
  have hne : id ≠ id' := fun hh => h hh.symm
  simp [Registry.insert, Registry.lookup, List.find?, hne]
  simpa [Registry.lookup] using Registry.lookup_remove_ne reg id id' h

/-! ## Concrete fixtures used by witnesses and counterexamples -/

/-- A fully cooperative runtime oracle. -/
def demoOracle : DockerOracle :=
  { imageLocal := true, pullOk := true, createOk := true, startOk := true,
    removeOk := true, execCreateOk := true, execAttachOk := true, inspectOk := true,
    exitCode := 0, deadlineFired := false, frames := [],
    newSandboxID := "abc12345", newContainerID := "ctr-1" }

/-- A registered sandbox record. -/
def demoSandbox : Sandbox :=
  { id := "abc12345", containerID := "ctr-1", template := "python",
    createdAt := 0, expiresAt := 600000 }

/-- An empty-registry server state. -/
def demoWorld : World := { reg := [], oracle := demoOracle, now := 1000 }

/-! ## Claim theorems -/

/-- **C2** (refuted — code bug).  The claim says every write to a
limited sink is accepted and *reported as fully consumed*, so the demux
drains to end-of-stream.  In the code, a cap-crossing write reports only
the trimmed count (`4` of `6` here), which makes `stdcopy.StdCopy`
abort with `io.ErrShortWrite` before end-of-stream: the second frame is
never routed. -/
theorem C2_cap_crossing_write_stops_demux :
    ((LimitedWriter.init 4).write [1, 2, 3, 4, 5, 6]).2 = 4
    ∧ ¬ ((LimitedWriter.init 4).write [1, 2, 3, 4, 5, 6]).2 = 6
    ∧ (execCapture [⟨.stdout, [1, 2, 3, 4, 5, 6]⟩, ⟨.stdout, [7]⟩] 4 100).drained = false := by
  decide

/-- Mux stream whose stderr crosses its cap before the stdout payload
arrives. -/
def c3Frames : List Frame :=
  [⟨.stderr, [1, 2, 3, 4, 5, 6]⟩, ⟨.stdout, List.replicate 200 0⟩]

/-- Registry holding the demo sandbox. -/
def c3Registry : Registry := [("abc12345", demoSandbox)]

/-- Oracle delivering `c3Frames` on the exec attach stream. -/
def c3Oracle : DockerOracle := { demoOracle with frames := c3Frames }

/-- **C3** (refuted — code bug).  The claim says `stdout_truncated` is
true iff the stream produced strictly more than `max_stdout` stdout
bytes.  With `max_stderr = 4` and `max_stdout = 100`, a stream carrying
a 6-byte stderr frame and then 200 stdout bytes makes the demux abort
on the stderr cap-crossing short write, so the 200 stdout bytes (> 100)
are never routed and `stdout_truncated` comes back `false`.  The length
bounds themselves hold (`stdout` stays empty here). -/
theorem C3_stdout_overflow_unflagged :
    stdoutBytesOf c3Frames = 200
    ∧ ((DockerProvider.exec c3Registry c3Oracle "abc12345" 100 4).2.toOption.map
        (fun r => (r.stdout.length, r.stdoutTruncated, r.stderr.length, r.stderrTruncated)))
      = some (0, false, 4, true)
    ∧ (execCapture c3Frames 100 4).outW.truncated = false := by
  set_option maxRecDepth 4000 in decide

/-- **C7 counterexample**.  The claim says a sandbox whose `expires_at`
equals `now` is selected by the reaper tick; the code uses
`now.After(sb.ExpiresAt)`, which is strict, so at `now = expires_at =
600000` the selection is empty. -/
theorem C7_boundary_instant_not_selected :
    cleanupExpiredIds [("abc12345", demoSandbox)] 600000 = []
    ∧ demoSandbox.expiresAt ≤ 600000 := by
  decide

/-- **C7** (amended).  The set of ids a reaper tick selects is exactly
the set of registered ids whose `expires_at` is *strictly before*
`now`; an id expiring exactly at `now` is not selected. -/
theorem C7_reaper_selects_strictly_expired (reg : Registry) (now : Nat) (id : String) :
    id ∈ cleanupExpiredIds reg now ↔ ∃ sb, (id, sb) ∈ reg ∧ sb.expiresAt < now := by
  simp only [cleanupExpiredIds, List.mem_map, List.mem_filter, decide_eq_true_eq]
  constructor
  · rintro ⟨⟨i, sb⟩, ⟨hmem, hlt⟩, rfl⟩
    exact ⟨sb, hmem, hlt⟩
  · rintro ⟨sb, hmem, hlt⟩
    exact ⟨(id, sb), ⟨hmem, hlt⟩, rfl⟩

/-- **C10** (refuted — code bug).  The claim says the termination of
either copy loop tears down the bridge.  In the code `done` is closed
only by the container→client loop, so when the client side closes first
(its loop returns) while the exec attach stream delivers nothing (the
read stays blocked and nothing closes the underlying stream), the
bridge does not shut down. -/
theorem C10_upstream_close_leaves_bridge_up :
    upstreamTerminates ClientStream.closed true = true
    ∧ bridgeShutsDown AttachStream.blockedA true = false
    ∧ downstreamTerminates AttachStream.blockedA true = false := by
  decide

/-- A create request carrying the unknown (non-empty) template
`"ruby"`. -/
def c4Req : RpcRequest :=
  { jsonrpc := "2.0", id := some 1, method := "sandbox.v1.create",
    params := some (.obj [("template", .str "ruby")]) }

/-- **C4 counterexample**.  The claim says an unknown template fails
with kind `INVALID_PARAMS`, not retryable.  On the code, the provider's
"unknown template" error is wrapped by the transport's single create
error path: code `-32003`, kind `CONTAINER_CREATE_FAILED`, marked
retryable. -/
theorem C4_unknown_template_marked_retryable :
    (serveRPC demoWorld c4Req).2.2.error =
      some (rpcErr (-32003) "container create failed" "CONTAINER_CREATE_FAILED" true
        (some (.unknownTemplate "ruby")))
    ∧ ((serveRPC demoWorld c4Req).2.2.error.map
        (fun e => e.data.map (fun d => (d.type, d.retryable))))
      = some (some ("CONTAINER_CREATE_FAILED", true)) := by
  decide

/-- **C4** (amended).  A create request whose decoded template is
non-empty but not one of {python, node, go} is rejected, surfaced as
kind `CONTAINER_CREATE_FAILED` with code `-32003` and marked retryable
(the empty template alone is caught earlier as `INVALID_PARAMS`). -/
theorem C4_unknown_template_create_failed (w : World) (req : RpcRequest) (p : CreateParams)
    (h2 : req.jsonrpc = "2.0") (hm : req.method = "sandbox.v1.create")
    (hdec : decodeCreateParams req.params = some p)
    (hne : p.template ≠ "") (hunk : lookupTemplate p.template = none) :
    (serveRPC w req).2.2.error =
      some (rpcErr (-32003) "container create failed" "CONTAINER_CREATE_FAILED" true
        (some (.unknownTemplate p.template))) := by
  simp [serveRPC, h2, hm, handleCreate, hdec, hne, DockerProvider.create, hunk]

/-- Witness for `C4_unknown_template_create_failed` at the concrete
request `c4Req`. -/
theorem C4_unknown_template_create_failed_witness :
    (serveRPC demoWorld c4Req).2.2.error =
      some (rpcErr (-32003) "container create failed" "CONTAINER_CREATE_FAILED" true
        (some (.unknownTemplate "ruby"))) :=
  C4_unknown_template_create_failed demoWorld c4Req { template := "ruby", ttlMS := 0 }
    rfl rfl (by decide) (by decide) (by decide)

/-- **C5** (confirmed).  Deleting a registered id removes the record
from the registry strictly before the runtime is asked to remove the
container (the trace order), afterwards the id is absent, and a second
delete of the same id observes "not found": no runtime removal attempt
is made, and the transport surfaces an error envelope carrying the
sandbox-not-found detail rather than crashing or re-entering removal. -/
theorem C5_delete_unregisters_before_removal (reg : Registry) (o o2 : DockerOracle)
    (id : String) (sb : Sandbox) (h : Registry.lookup reg id = some sb) :
    (DockerProvider.delete reg o id).2.1 =
      [.registryRemove id, .containerRemoveForce sb.containerID]
    ∧ Registry.lookup (DockerProvider.delete reg o id).1 id = none
    ∧ DockerProvider.delete (DockerProvider.delete reg o id).1 o2 id =
        ((DockerProvider.delete reg o id).1, [], some (.notFound id))
    ∧ (∀ (w : World) (req : RpcRequest) (p : DeleteParams),
        w.reg = (DockerProvider.delete reg o id).1 →
        decodeDeleteParams req.params = some p → p.id = id → p.id ≠ "" →
        (handleDelete w req).2.1 = []
        ∧ (handleDelete w req).2.2.error =
            some (rpcErr (-32007) "delete failed" "DELETE_FAILED" true
              (some (.notFound id)))) := by
  have hnone : Registry.lookup (Registry.remove reg id) id = none :=
    Registry.lookup_remove reg id
  refine ⟨?_, ?_, ?_, ?_⟩
  · simp [DockerProvider.delete, h]
  · simp [DockerProvider.delete, h, hnone]
  · simp [DockerProvider.delete, h, hnone]
  · intro w req p hw hdec hpid hpne
    subst hpid
    simp [handleDelete, hdec, hpne, DockerProvider.delete, hw, h, hnone]

/-- Witness for `C5_delete_unregisters_before_removal` on a one-entry
registry. -/
theorem C5_delete_unregisters_before_removal_witness :
    (DockerProvider.delete [("abc12345", demoSandbox)] demoOracle "abc12345").2.1 =
      [.registryRemove "abc12345", .containerRemoveForce "ctr-1"] :=
  (C5_delete_unregisters_before_removal [("abc12345", demoSandbox)] demoOracle demoOracle
    "abc12345" demoSandbox (by decide)).1

/-- Helper: a failed create leaves the registry untouched and performs
no registry insertion. -/
lemma create_error_registry_unchanged (reg : Registry) (o : DockerOracle)
    (now ttl : Nat) (t : String) (e : ProviderErr)
    (h : (DockerProvider.create reg o now t ttl).2.2 = .error e) :
    (DockerProvider.create reg o now t ttl).1 = reg
    ∧ ∀ id, DockerEvent.registryInsert id ∉ (DockerProvider.create reg o now t ttl).2.1 := by
  unfold DockerProvider.create at *
  cases hT : lookupTemplate t <;>
    cases hIL : o.imageLocal <;> cases hP : o.pullOk <;>
    cases hC : o.createOk <;> cases hS : o.startOk <;>
    simp_all

/-- Helper: when the container was created but create still failed (the
start step failed), the trace contains the force-removal of that
container. -/
lemma create_error_cleanup (reg : Registry) (o : DockerOracle)
    (now ttl : Nat) (t : String) (e : ProviderErr)
    (h : (DockerProvider.create reg o now t ttl).2.2 = .error e)
    (hok : o.createOk = true)
    (cfg : ContainerConfig) (host : ContainerHostConfig) (nm : String)
    (hc : DockerEvent.containerCreate cfg host nm ∈ (DockerProvider.create reg o now t ttl).2.1) :
    DockerEvent.containerRemoveForce o.newContainerID ∈
      (DockerProvider.create reg o now t ttl).2.1 := by
  unfold DockerProvider.create at *
  cases hT : lookupTemplate t <;>
    cases hIL : o.imageLocal <;> cases hP : o.pullOk <;>
    cases hC : o.createOk <;> cases hS : o.startOk <;>
    simp_all

/-- Helper: a successful create's trace is exactly pull (if needed),
container create, container start, registry insert — in that order —
and the new registry is the old one plus the started record. -/
lemma create_success_trace (reg : Registry) (o : DockerOracle)
    (now ttl : Nat) (t : String) (id : String) (exp : Nat)
    (h : (DockerProvider.create reg o now t ttl).2.2 = .ok (id, exp)) :
    ∃ img, lookupTemplate t = some img
    ∧ (DockerProvider.create reg o now t ttl).2.1 =
        (if o.imageLocal then [] else [.imagePull img]) ++
        [.containerCreate (mkContainerConfig img) sandboxHostConfig
           ("sandbox-" ++ o.newSandboxID),
         .containerStart o.newContainerID,
         .registryInsert id]
    ∧ (DockerProvider.create reg o now t ttl).1 =
        Registry.insert reg id
          { id := id, containerID := o.newContainerID, template := t,
            createdAt := now, expiresAt := now + ttl }
    ∧ id = o.newSandboxID ∧ exp = now + ttl := by
  unfold DockerProvider.create at *
  cases hT : lookupTemplate t <;>
    cases hIL : o.imageLocal <;> cases hP : o.pullOk <;>
    cases hC : o.createOk <;> cases hS : o.startOk <;>
    simp_all

/-- **C6** (confirmed).  Create is all-or-nothing from the registry's
point of view: a record is inserted only after the container create and
start both succeeded (and then strictly after the start event in the
trace); on any failure the registry is unchanged, no insert event
occurs, and a container that had been created is force-removed before
create returns. -/
theorem C6_create_all_or_nothing (reg : Registry) (o : DockerOracle) (now ttl : Nat)
    (t : String) :
    (∀ e, (DockerProvider.create reg o now t ttl).2.2 = .error e →
        (DockerProvider.create reg o now t ttl).1 = reg
        ∧ (∀ id, DockerEvent.registryInsert id ∉ (DockerProvider.create reg o now t ttl).2.1)
        ∧ (o.createOk = true → ∀ cfg host nm,
            DockerEvent.containerCreate cfg host nm ∈ (DockerProvider.create reg o now t ttl).2.1 →
            DockerEvent.containerRemoveForce o.newContainerID ∈
              (DockerProvider.create reg o now t ttl).2.1))
    ∧ (∀ id exp, (DockerProvider.create reg o now t ttl).2.2 = .ok (id, exp) →
        ∃ img, lookupTemplate t = some img
        ∧ (DockerProvider.create reg o now t ttl).2.1 =
            (if o.imageLocal then [] else [.imagePull img]) ++
            [.containerCreate (mkContainerConfig img) sandboxHostConfig
               ("sandbox-" ++ o.newSandboxID),
             .containerStart o.newContainerID,
             .registryInsert id]
        ∧ (DockerProvider.create reg o now t ttl).1 =
            Registry.insert reg id
              { id := id, containerID := o.newContainerID, template := t,
                createdAt := now, expiresAt := now + ttl }) := by
  constructor
  · intro e he
    obtain ⟨h1, h2⟩ := create_error_registry_unchanged reg o now ttl t e he
    exact ⟨h1, h2, fun hok cfg host nm hc =>
      create_error_cleanup reg o now ttl t e he hok cfg host nm hc⟩
  · intro id exp hok
    obtain ⟨img, hT, htr, hreg, _, _⟩ := create_success_trace reg o now ttl t id exp hok
    exact ⟨img, hT, htr, hreg⟩

/-- **C8** (confirmed).  Every container-create call issued by the
provider carries exactly the contracted configuration: `sleep infinity`,
workdir `/workspace`, stdin open and attached without TTY, all
capabilities dropped, network mode `none`, `no-new-privileges`, 512 MiB
memory with swap equal to memory, CPU quota 50000 per 100000 µs period,
and a pids limit of 100. -/
theorem C8_container_security_posture (reg : Registry) (o : DockerOracle) (now ttl : Nat)
    (t : String) (cfg : ContainerConfig) (host : ContainerHostConfig) (nm : String)
    (h : DockerEvent.containerCreate cfg host nm ∈ (DockerProvider.create reg o now t ttl).2.1) :
    cfg.cmd = ["sleep", "infinity"]
    ∧ cfg.workingDir = "/workspace"
    ∧ cfg.openStdin = true ∧ cfg.attachStdin = true ∧ cfg.tty = false
    ∧ host.capDrop = ["ALL"]
    ∧ host.networkMode = "none"
    ∧ host.securityOpt = ["no-new-privileges"]
    ∧ host.memory = 512 * 1024 * 1024
    ∧ host.memorySwap = host.memory
    ∧ host.cpuQuota = 50000 ∧ host.cpuPeriod = 100000
    ∧ host.pidsLimit = 100 := by
  unfold DockerProvider.create at h
  cases hT : lookupTemplate t <;>
    cases hIL : o.imageLocal <;> cases hP : o.pullOk <;>
    cases hC : o.createOk <;> cases hS : o.startOk <;>
    simp_all [mkContainerConfig, sandboxHostConfig]

/-- Witness for `C8_container_security_posture`: a successful create on
the demo state issues exactly one container-create event, with the
python image. -/
theorem C8_container_security_posture_witness :
    (mkContainerConfig "python:3.11-slim").cmd = ["sleep", "infinity"]
    ∧ (mkContainerConfig "python:3.11-slim").workingDir = "/workspace"
    ∧ (mkContainerConfig "python:3.11-slim").openStdin = true
    ∧ (mkContainerConfig "python:3.11-slim").attachStdin = true
    ∧ (mkContainerConfig "python:3.11-slim").tty = false
    ∧ sandboxHostConfig.capDrop = ["ALL"]
    ∧ sandboxHostConfig.networkMode = "none"
    ∧ sandboxHostConfig.securityOpt = ["no-new-privileges"]
    ∧ sandboxHostConfig.memory = 512 * 1024 * 1024
    ∧ sandboxHostConfig.memorySwap = sandboxHostConfig.memory
    ∧ sandboxHostConfig.cpuQuota = 50000 ∧ sandboxHostConfig.cpuPeriod = 100000
    ∧ sandboxHostConfig.pidsLimit = 100 :=
  C8_container_security_posture [] demoOracle 1000 600000 "python"
    (mkContainerConfig "python:3.11-slim") sandboxHostConfig "sandbox-abc12345"
    (by decide)

/-- **C9** (confirmed).  When the runtime's container removal fails,
delete reports the failure yet the record is already gone: the transport
surfaces `DELETE_FAILED` (code `-32007`, retryable), the id no longer
resolves, a retried delete reports "not found" without touching the
runtime, and a subsequent exec reports "sandbox not found". -/
theorem C9_failed_delete_loses_record (reg : Registry) (o o2 : DockerOracle)
    (id : String) (sb : Sandbox)
    (h : Registry.lookup reg id = some sb) (hrm : o.removeOk = false) :
    (DockerProvider.delete reg o id).2.2 = some .removeFailed
    ∧ Registry.lookup (DockerProvider.delete reg o id).1 id = none
    ∧ (DockerProvider.delete (DockerProvider.delete reg o id).1 o2 id).2 =
        ([], some (.notFound id))
    ∧ (DockerProvider.exec (DockerProvider.delete reg o id).1 o2 id 1 1) =
        ([], .error (.notFound id))
    ∧ (∀ (w : World) (req : RpcRequest) (p : DeleteParams),
        w.reg = reg → w.oracle = o →
        decodeDeleteParams req.params = some p → p.id = id → p.id ≠ "" →
        (handleDelete w req).2.2.error =
          some (rpcErr (-32007) "delete failed" "DELETE_FAILED" true
            (some .removeFailed))
        ∧ (handleDelete w req).1.reg = Registry.remove reg id) := by
  have hnone : Registry.lookup (Registry.remove reg id) id = none :=
    Registry.lookup_remove reg id
  refine ⟨?_, ?_, ?_, ?_, ?_⟩
  · simp [DockerProvider.delete, h, hrm]
  · simp [DockerProvider.delete, h, hnone]
  · simp [DockerProvider.delete, h, hnone]
  · simp [DockerProvider.delete, DockerProvider.exec, h, hnone]
  · intro w req p hw ho hdec hpid hpne
    subst hpid
    simp [handleDelete, hdec, hpne, DockerProvider.delete, hw, ho, h, hrm]

/-- Witness for `C9_failed_delete_loses_record` on a one-entry registry
with a runtime whose removal fails. -/
theorem C9_failed_delete_loses_record_witness :
    (DockerProvider.delete [("abc12345", demoSandbox)]
        { demoOracle with removeOk := false } "abc12345").2.2 = some .removeFailed :=
  (C9_failed_delete_loses_record [("abc12345", demoSandbox)]
    { demoOracle with removeOk := false } demoOracle "abc12345" demoSandbox
    (by decide) (by decide)).1

/-! ### Per-handler facts feeding the C1 dispatch theorem -/

lemma handleCreate_no32601 (w : World) (req : RpcRequest) :
    ((handleCreate w req).2.2.error.map (fun e => e.code)) ≠ some (-32601) := by
  unfold handleCreate
  cases hdec : decodeCreateParams req.params with
  | none => simp [rpcErr]
  | some p =>
    by_cases ht : p.template = ""
    · simp [ht, rpcErr]
    · rcases hx : DockerProvider.create w.reg w.oracle w.now p.template
          ((if p.ttlMS ≤ 0 then 600000 else p.ttlMS).toNat) with ⟨reg', tr, res⟩
      cases res <;> simp [ht, hx, rpcErr]

lemma handleExec_no32601 (w : World) (req : RpcRequest) :
    ((handleExec w req).2.2.error.map (fun e => e.code)) ≠ some (-32601) := by
  unfold handleExec
  cases hdec : decodeExecParams req.params with
  | none => simp [rpcErr]
  | some p =>
    by_cases hv : p.id = "" || p.cmd.isEmpty
    · simp [hv, rpcErr]
    · rcases hx : DockerProvider.exec w.reg w.oracle p.id
          ((clampCap p.maxStdoutBytes DefaultStdoutBytes).toNat)
          ((clampCap p.maxStderrBytes DefaultStderrBytes).toNat) with ⟨tr, res⟩
      cases res <;> simp [hv, hx, rpcErr]

lemma handleWriteFile_no32601 (w : World) (req : RpcRequest) :
    ((handleWriteFile w req).2.2.error.map (fun e => e.code)) ≠ some (-32601) := by
  unfold handleWriteFile
  cases hdec : decodeWriteFileParams req.params with
  | none => simp [rpcErr]
  | some p =>
    by_cases hv : p.id = "" || p.path = ""
    · simp [hv, rpcErr]
    · rcases hx : DockerProvider.writeFile w.reg w.oracle p.id with ⟨tr, res⟩
      cases res <;> simp [hv, hx, rpcErr]

lemma handleReadFile_no32601 (w : World) (req : RpcRequest) :
    ((handleReadFile w req).2.2.error.map (fun e => e.code)) ≠ some (-32601) := by
  unfold handleReadFile
  cases hdec : decodeFilePathParams req.params with
  | none => simp [rpcErr]
  | some p =>
    by_cases hv : p.id = "" || p.path = ""
    · simp [hv, rpcErr]
    · rcases hx : DockerProvider.readFile w.reg w.oracle p.id with ⟨tr, res⟩
      cases res <;> simp [hv, hx, rpcErr]

lemma handleListDir_no32601 (w : World) (req : RpcRequest) :
    ((handleListDir w req).2.2.error.map (fun e => e.code)) ≠ some (-32601) := by
  unfold handleListDir
  cases hdec : decodeFilePathParams req.params with
  | none => simp [rpcErr]
  | some p =>
    by_cases hv : p.id = "" || p.path = ""
    · simp [hv, rpcErr]
    · rcases hx : DockerProvider.listDir w.reg w.oracle p.id p.path with ⟨tr, res⟩
      cases res <;> simp [hv, hx, rpcErr]

lemma handleDelete_no32601 (w : World) (req : RpcRequest) :
    ((handleDelete w req).2.2.error.map (fun e => e.code)) ≠ some (-32601) := by
  unfold handleDelete
  cases hdec : decodeDeleteParams req.params with
  | none => simp [rpcErr]
  | some p =>
    by_cases hv : p.id = ""
    · simp [hv, rpcErr]
    · rcases hx : DockerProvider.delete w.reg w.oracle p.id with ⟨reg', tr, res⟩
      cases res <;> simp [hv, hx, rpcErr]

lemma handleCreate_shape (w : World) (req : RpcRequest) :
    ∀ r, (handleCreate w req).2.2.result = some r →
      resultShapeOK "sandbox.v1.create" r = true := by
  intro r h
  unfold handleCreate at h
  cases hdec : decodeCreateParams req.params with
  | none => simp [hdec] at h
  | some p =>
    rw [hdec] at h
    by_cases ht : p.template = ""
    · simp [ht] at h
    · rcases hx : DockerProvider.create w.reg w.oracle w.now p.template
          ((if p.ttlMS ≤ 0 then 600000 else p.ttlMS).toNat) with ⟨reg', tr, res⟩
      cases res <;> simp [ht, hx] at h
      obtain rfl := h.symm
      rfl

lemma handleExec_shape (w : World) (req : RpcRequest) :
    ∀ r, (handleExec w req).2.2.result = some r →
      resultShapeOK "sandbox.v1.exec" r = true := by
  intro r h
  unfold handleExec at h
  cases hdec : decodeExecParams req.params with
  | none => simp [hdec] at h
  | some p =>
    rw [hdec] at h
    by_cases hv : p.id = "" || p.cmd.isEmpty
    · simp [hv] at h
    · rcases hx : DockerProvider.exec w.reg w.oracle p.id
          ((clampCap p.maxStdoutBytes DefaultStdoutBytes).toNat)
          ((clampCap p.maxStderrBytes DefaultStderrBytes).toNat) with ⟨tr, res⟩
      cases res <;> simp [hv, hx] at h
      obtain rfl := h.symm
      rfl

lemma handleWriteFile_shape (w : World) (req : RpcRequest) :
    ∀ r, (handleWriteFile w req).2.2.result = some r →
      resultShapeOK "sandbox.v1.writeFile" r = true := by
  intro r h
  unfold handleWriteFile at h
  cases hdec : decodeWriteFileParams req.params with
  | none => simp [hdec] at h
  | some p =>
    rw [hdec] at h
    by_cases hv : p.id = "" || p.path = ""
    · simp [hv] at h
    · rcases hx : DockerProvider.writeFile w.reg w.oracle p.id with ⟨tr, res⟩
      cases res <;> simp [hv, hx] at h
      obtain rfl := h.symm
      rfl

lemma handleReadFile_shape (w : World) (req : RpcRequest) :
    ∀ r, (handleReadFile w req).2.2.result = some r →
      resultShapeOK "sandbox.v1.readFile" r = true := by
  intro r h
  unfold handleReadFile at h
  cases hdec : decodeFilePathParams req.params with
  | none => simp [hdec] at h
  | some p =>
    rw [hdec] at h
    by_cases hv : p.id = "" || p.path = ""
    · simp [hv] at h
    · rcases hx : DockerProvider.readFile w.reg w.oracle p.id with ⟨tr, res⟩
      cases res <;> simp [hv, hx] at h
      obtain rfl := h.symm
      rfl

lemma handleListDir_shape (w : World) (req : RpcRequest) :
    ∀ r, (handleListDir w req).2.2.result = some r →
      resultShapeOK "sandbox.v1.listDir" r = true := by
  intro r h
  unfold handleListDir at h
  cases hdec : decodeFilePathParams req.params with
  | none => simp [hdec] at h
  | some p =>
    rw [hdec] at h
    by_cases hv : p.id = "" || p.path = ""
    · simp [hv] at h
    · rcases hx : DockerProvider.listDir w.reg w.oracle p.id p.path with ⟨tr, res⟩
      cases res <;> simp [hv, hx] at h
      obtain rfl := h.symm
      rfl

lemma handleDelete_shape (w : World) (req : RpcRequest) :
    ∀ r, (handleDelete w req).2.2.result = some r →
      resultShapeOK "sandbox.v1.delete" r = true := by
  intro r h
  unfold handleDelete at h
  cases hdec : decodeDeleteParams req.params with
  | none => simp [hdec] at h
  | some p =>
    rw [hdec] at h
    by_cases hv : p.id = ""
    · simp [hv] at h
    · rcases hx : DockerProvider.delete w.reg w.oracle p.id with ⟨reg', tr, res⟩
      cases res <;> simp [hv, hx] at h
      obtain rfl := h.symm
      rfl

/-- **C1** (confirmed; the writeFile/readFile/listDir dispatch cases are
modelled from the spec, being transport code absent from
`src/core/api/rpc.go`).  For every well-formed JSON-RPC 2.0 request,
the response carries code `-32601` exactly when the method name is
outside the six-method surface; any result returned has the §6.1 shape
for its method; and each of the six method names is dispatched to its
corresponding operation's handler. -/
theorem C1_rpc_dispatch (w : World) (req : RpcRequest)
    (h2 : req.jsonrpc = "2.0") (hm : req.method ≠ "") :
    (((serveRPC w req).2.2.error.map (fun e => e.code)) = some (-32601) ↔
      req.method ∉ rpcMethods)
    ∧ (∀ r, (serveRPC w req).2.2.result = some r → resultShapeOK req.method r = true)
    ∧ (req.method = "sandbox.v1.create" → serveRPC w req = handleCreate w req)
    ∧ (req.method = "sandbox.v1.exec" → serveRPC w req = handleExec w req)
    ∧ (req.method = "sandbox.v1.writeFile" → serveRPC w req = handleWriteFile w req)
    ∧ (req.method = "sandbox.v1.readFile" → serveRPC w req = handleReadFile w req)
    ∧ (req.method = "sandbox.v1.listDir" → serveRPC w req = handleListDir w req)
    ∧ (req.method = "sandbox.v1.delete" → serveRPC w req = handleDelete w req) := by
  by_cases m1 : req.method = "sandbox.v1.create"
  · have hred : serveRPC w req = handleCreate w req := by
      simp [serveRPC, h2, hm, m1]
    refine ⟨?_, ?_, ?_, ?_, ?_, ?_, ?_, ?_⟩
    · rw [hred, m1]
      exact iff_of_false (handleCreate_no32601 w req) (by decide)
    · rw [hred, m1]
      exact handleCreate_shape w req
    · exact fun _ => hred
    · exact fun hx => absurd (m1.symm.trans hx) (by decide)
    · exact fun hx => absurd (m1.symm.trans hx) (by decide)
    · exact fun hx => absurd (m1.symm.trans hx) (by decide)
    · exact fun hx => absurd (m1.symm.trans hx) (by decide)
    · exact fun hx => absurd (m1.symm.trans hx) (by decide)
  by_cases m2 : req.method = "sandbox.v1.exec"
  · have hred : serveRPC w req = handleExec w req := by
      simp [serveRPC, h2, hm, m1, m2]
    refine ⟨?_, ?_, ?_, ?_, ?_, ?_, ?_, ?_⟩
    · rw [hred, m2]
      exact iff_of_false (handleExec_no32601 w req) (by decide)
    · rw [hred, m2]
      exact handleExec_shape w req
    · exact fun hx => absurd (m2.symm.trans hx) (by decide)
    · exact fun _ => hred
    · exact fun hx => absurd (m2.symm.trans hx) (by decide)
    · exact fun hx => absurd (m2.symm.trans hx) (by decide)
    · exact fun hx => absurd (m2.symm.trans hx) (by decide)
    · exact fun hx => absurd (m2.symm.trans hx) (by decide)
  by_cases m3 : req.method = "sandbox.v1.writeFile"
  · have hred : serveRPC w req = handleWriteFile w req := by
      simp [serveRPC, h2, hm, m1, m2, m3]
    refine ⟨?_, ?_, ?_, ?_, ?_, ?_, ?_, ?_⟩
    · rw [hred, m3]
      exact iff_of_false (handleWriteFile_no32601 w req) (by decide)
    · rw [hred, m3]
      exact handleWriteFile_shape w req
    · exact fun hx => absurd (m3.symm.trans hx) (by decide)
    · exact fun hx => absurd (m3.symm.trans hx) (by decide)
    · exact fun _ => hred
    · exact fun hx => absurd (m3.symm.trans hx) (by decide)
    · exact fun hx => absurd (m3.symm.trans hx) (by decide)
    · exact fun hx => absurd (m3.symm.trans hx) (by decide)
  by_cases m4 : req.method = "sandbox.v1.readFile"
  · have hred : serveRPC w req = handleReadFile w req := by
      simp [serveRPC, h2, hm, m1, m2, m3, m4]
    refine ⟨?_, ?_, ?_, ?_, ?_, ?_, ?_, ?_⟩
    · rw [hred, m4]
      exact iff_of_false (handleReadFile_no32601 w req) (by decide)
    · rw [hred, m4]
      exact handleReadFile_shape w req
    · exact fun hx => absurd (m4.symm.trans hx) (by decide)
    · exact fun hx => absurd (m4.symm.trans hx) (by decide)
    · exact fun hx => absurd (m4.symm.trans hx) (by decide)
    · exact fun _ => hred
    · exact fun hx => absurd (m4.symm.trans hx) (by decide)
    · exact fun hx => absurd (m4.symm.trans hx) (by decide)
  by_cases m5 : req.method = "sandbox.v1.listDir"
  · have hred : serveRPC w req = handleListDir w req := by
      simp [serveRPC, h2, hm, m1, m2, m3, m4, m5]
    refine ⟨?_, ?_, ?_, ?_, ?_, ?_, ?_, ?_⟩
    · rw [hred, m5]
      exact iff_of_false (handleListDir_no32601 w req) (by decide)
    · rw [hred, m5]
      exact handleListDir_shape w req
    · exact fun hx => absurd (m5.symm.trans hx) (by decide)
    · exact fun hx => absurd (m5.symm.trans hx) (by decide)
    · exact fun hx => absurd (m5.symm.trans hx) (by decide)
    · exact fun hx => absurd (m5.symm.trans hx) (by decide)
    · exact fun _ => hred
    · exact fun hx => absurd (m5.symm.trans hx) (by decide)
  by_cases m6 : req.method = "sandbox.v1.delete"
  · have hred : serveRPC w req = handleDelete w req := by
      simp [serveRPC, h2, hm, m1, m2, m3, m4, m5, m6]
    refine ⟨?_, ?_, ?_, ?_, ?_, ?_, ?_, ?_⟩
    · rw [hred, m6]
      exact iff_of_false (handleDelete_no32601 w req) (by decide)
    · rw [hred, m6]
      exact handleDelete_shape w req
    · exact fun hx => absurd (m6.symm.trans hx) (by decide)
    · exact fun hx => absurd (m6.symm.trans hx) (by decide)
    · exact fun hx => absurd (m6.symm.trans hx) (by decide)
    · exact fun hx => absurd (m6.symm.trans hx) (by decide)
    · exact fun hx => absurd (m6.symm.trans hx) (by decide)
    · exact fun _ => hred
  have hred : serveRPC w req =
      (w, [],
       ⟨req.id, none,
        some ({ code := -32601, message := "method not found", data := none } : RPCError)⟩) := by
    simp [serveRPC, h2, hm, m1, m2, m3, m4, m5, m6]
  have hnotin : req.method ∉ rpcMethods := by
    simp [rpcMethods, m1, m2, m3, m4, m5, m6]
  refine ⟨?_, ?_, fun hx => absurd hx m1, fun hx => absurd hx m2, fun hx => absurd hx m3,
    fun hx => absurd hx m4, fun hx => absurd hx m5, fun hx => absurd hx m6⟩
  · exact iff_of_true (by rw [hred]; rfl) hnotin
  · intro r hr
    rw [hred] at hr
    simp at hr


/-- A well-formed request naming a method outside the §6.1 surface. -/
def c1Req : RpcRequest :=
  { jsonrpc := "2.0", id := some 7, method := "sandbox.v1.destroy", params := none }

/-- Witness for `C1_rpc_dispatch` at the concrete unknown-method request
`c1Req`. -/
theorem C1_rpc_dispatch_witness :
    ((serveRPC demoWorld c1Req).2.2.error.map (fun e => e.code)) = some (-32601) ↔
      c1Req.method ∉ rpcMethods :=
  (C1_rpc_dispatch demoWorld c1Req rfl (by decide)).1

end Capsule
